import Mathlib

/-!
Shallow embedding of the go-echo-rabbitmq service: the in-memory order
registry with its HTTP handlers (app/handlers/order_handler.go), the
RabbitMQ topology setup, publisher and consumer (the rabbitmq package),
together with theorems settling the specification's claims about them.
-/

namespace GoEchoRabbit

/-- The `Order` struct of order_handler.go: `ID string`, `Item string`,
`Price int`, `MessageType string`. -/
structure Order where
  id : String
  item : String
  price : Int
  messageType : String
  deriving DecidableEq, Repr

/-- The global `orders` map (`map[string]*Order`), modelled extensionally as
a partial function from ids to order records. All handler accesses are
serialized by the global mutex `mu`, so each handler is a plain function on
this state. -/
def Registry : Type := String → Option Order

/-- Go map assignment `orders[k] = v`. -/
def mapSet (reg : Registry) (k : String) (v : Order) : Registry :=
  fun q => if q = k then some v else reg q

/-- Go `delete(orders, k)`. -/
def mapDel (reg : Registry) (k : String) : Registry :=
  fun q => if q = k then none else reg q

/-- The empty registry (fresh process state). -/
def emptyRegistry : Registry := fun _ => none

/-- The HTTP-level outcomes a handler can produce, stripped of JSON
rendering (the request-routing layer is out of scope per the spec). -/
inductive HResp
  | okCreated (orderID : String) (messageType : String)
  | okOrder (o : Order)
  | noContent
  | notFound
  | internalError (msg : String)
  deriving DecidableEq, Repr

/-! ## Broker model

The AMQP broker and the streadway/amqp client are not part of this
repository; their declare/inspect/bind semantics are modelled from the
spec's broker wire contract and glossary: declaring an existing queue or
exchange with identical parameters is a no-op, declaring it with different
parameters (for queues, notably different `x-dead-letter-*` arguments) is a
conflict error, and inspecting a missing queue is an error. -/

/-- Queue parameters as passed to `QueueDeclare` (name aside):
durable, auto-delete (delete when unused), exclusive, and the optional
arguments table. The no-wait flag is a call mode, not a queue property,
and is `false` at every call site, so it is omitted. -/
structure QueueDecl where
  durable : Bool
  autoDelete : Bool
  exclusive : Bool
  args : List (String × String)
  deriving DecidableEq, Repr

/-- Exchange parameters as passed to `ExchangeDeclare`. -/
structure ExchangeDecl where
  kind : String
  durable : Bool
  autoDelete : Bool
  internal : Bool
  deriving DecidableEq, Repr

/-- Broker-side topology state: declared queues, declared exchanges, and
queue bindings `(queue, routing-key pattern, exchange)`. -/
structure Broker where
  queues : List (String × QueueDecl)
  exchanges : List (String × ExchangeDecl)
  bindings : List (String × String × String)
  deriving DecidableEq, Repr

def emptyBroker : Broker := ⟨[], [], []⟩

/-- Broker-side operation failures. -/
inductive AmqpError
  | preconditionFailed
  | notFound
  | network
  deriving DecidableEq, Repr

/-- Modelled from the spec: `QueueDeclare` succeeds and is a no-op when the
queue already exists with the same parameters, fails with a precondition
error when it exists with different parameters (the spec's "redeclaring
queues with conflicting arguments"), and otherwise creates the queue. -/
def queueDeclare (b : Broker) (name : String) (d : QueueDecl) :
    Except AmqpError Broker :=
  match b.queues.lookup name with
  | some d0 => if d0 = d then .ok b else .error .preconditionFailed
  | none => .ok { b with queues := (name, d) :: b.queues }

/-- Modelled from the spec: `QueueInspect` returns the queue's declaration
when it exists and fails when it does not ("existence probed first"). -/
def queueInspect (b : Broker) (name : String) : Except AmqpError QueueDecl :=
  match b.queues.lookup name with
  | some d => .ok d
  | none => .error .notFound

/-- Modelled from the spec: `ExchangeDeclare`, same equivalence rule as
`queueDeclare`. -/
def exchangeDeclare (b : Broker) (name : String) (d : ExchangeDecl) :
    Except AmqpError Broker :=
  match b.exchanges.lookup name with
  | some d0 => if d0 = d then .ok b else .error .preconditionFailed
  | none => .ok { b with exchanges := (name, d) :: b.exchanges }

/-- Modelled from the spec: `QueueBind` records a binding between an
existing queue and an existing exchange. -/
def queueBind (b : Broker) (q pat ex : String) : Except AmqpError Broker :=
  if (b.queues.lookup q).isSome && (b.exchanges.lookup ex).isSome then
    .ok { b with bindings := (q, pat, ex) :: b.bindings }
  else .error .notFound

/-- The error taxonomy of the spec for the broker path. -/
inductive RmqError
  | brokerConnection
  | channel
  | topologyDeclaration
  | publish
  deriving DecidableEq, Repr

/-- Network-level failure injection for the broker calls made by
`ConnectRabbitMQ` and `PublishMessage`: `true` means the underlying
network operation succeeds (broker-side conflicts are still decided by the
broker state). -/
structure RmqEnv where
  dialOk : Bool
  channelOk : Bool
  declareDlqOk : Bool
  declareOrdersOk : Bool
  declareExchangeOk : Bool
  bindOk : Bool
  publishOk : Bool
  deriving DecidableEq, Repr

def envAllOk : RmqEnv := ⟨true, true, true, true, true, true, true⟩

/-- The steps `ConnectRabbitMQ` can perform, in source order. -/
inductive Step
  | dial
  | openChannel
  | declareDlq
  | inspectOrders
  | declareOrders
  | inspectDlq
  | declareExchange
  | bindQueue
  deriving DecidableEq, Repr

/-- Parameters of the dead-letter queue declaration in ConnectRabbitMQ:
`QueueDeclare("orders_dlq", true, false, false, false, nil)`. -/
def dlqDecl : QueueDecl := ⟨true, false, false, []⟩

/-- Parameters of the work-queue declaration in ConnectRabbitMQ:
durable, with the dead-letter arguments routing rejected messages to
`orders_dlq` via the default exchange. -/
def ordersDeclWithDlx : QueueDecl :=
  ⟨true, false, false,
    [("x-dead-letter-exchange", ""), ("x-dead-letter-routing-key", "orders_dlq")]⟩

/-- Parameters of the work-queue declaration in StartConsumer:
`QueueDeclare("orders", true, false, false, false, nil)` — note: no
dead-letter arguments. -/
def consumerOrdersDecl : QueueDecl := ⟨true, false, false, []⟩

/-- Parameters of `ExchangeDeclare("order_topic", "topic", true, false,
false, false, nil)`. -/
def orderTopicDecl : ExchangeDecl := ⟨"topic", true, false, false⟩

/-- Tail of `ConnectRabbitMQ` after the queue declarations: declare the
topic exchange `order_topic`, then bind `orders` to it with pattern
`order.*`; each failure returns immediately. -/
def finishTopology (env : RmqEnv) (b : Broker) (tr : List Step) :
    List Step × Except RmqError Broker :=
  match (if env.declareExchangeOk then exchangeDeclare b "order_topic" orderTopicDecl
         else .error .network) with
  | .error _ => (tr ++ [Step.declareExchange], .error RmqError.topologyDeclaration)
  | .ok b1 =>
    match (if env.bindOk then queueBind b1 "orders" "order.*" "order_topic"
           else .error .network) with
    | .error _ =>
      (tr ++ [Step.declareExchange, Step.bindQueue], .error RmqError.topologyDeclaration)
    | .ok b2 => (tr ++ [Step.declareExchange, Step.bindQueue], .ok b2)

/-- Translation of `ConnectRabbitMQ` (rabbitmq package): dial, open a
channel, declare the DLQ `orders_dlq`, inspect `orders` and declare it with
dead-letter arguments only when the inspection fails (in the Go code any
`QueueInspect` error takes the declare branch), otherwise re-inspect the
DLQ; then declare the exchange and bind. The first component is the trace
of steps performed, the second the returned result; every error returns to
the caller at once, with no retry. -/
def ConnectRabbitMQ (env : RmqEnv) (b : Broker) :
    List Step × Except RmqError Broker :=
  if !env.dialOk then ([Step.dial], .error RmqError.brokerConnection)
  else if !env.channelOk then
    ([Step.dial, Step.openChannel], .error RmqError.channel)
  else
    match (if env.declareDlqOk then queueDeclare b "orders_dlq" dlqDecl
           else .error .network) with
    | .error _ =>
      ([Step.dial, Step.openChannel, Step.declareDlq],
       .error RmqError.topologyDeclaration)
    | .ok b1 =>
      match queueInspect b1 "orders" with
      | .error _ =>
        match (if env.declareOrdersOk then queueDeclare b1 "orders" ordersDeclWithDlx
               else .error .network) with
        | .error _ =>
          ([Step.dial, Step.openChannel, Step.declareDlq, Step.inspectOrders,
            Step.declareOrders], .error RmqError.topologyDeclaration)
        | .ok b2 =>
          finishTopology env b2
            [Step.dial, Step.openChannel, Step.declareDlq, Step.inspectOrders,
             Step.declareOrders]
      | .ok _ =>
        match queueInspect b1 "orders_dlq" with
        | .error _ =>
          ([Step.dial, Step.openChannel, Step.declareDlq, Step.inspectOrders,
            Step.inspectDlq], .error RmqError.topologyDeclaration)
        | .ok _ =>
          finishTopology env b1
            [Step.dial, Step.openChannel, Step.declareDlq, Step.inspectOrders,
             Step.inspectDlq]

/-- The canonical step sequence of a fully successful `ConnectRabbitMQ`
run against broker state `b`: the work-queue declaration happens exactly
when `orders` does not yet exist, the DLQ re-inspection exactly when it
does. -/
def fullTrace (b : Broker) : List Step :=
  [Step.dial, Step.openChannel, Step.declareDlq, Step.inspectOrders]
    ++ (if (b.queues.lookup "orders").isSome then [Step.inspectDlq]
        else [Step.declareOrders])
    ++ [Step.declareExchange, Step.bindQueue]

/-- The wire-level publication assembled by `PublishMessage`. -/
structure PublishRecord where
  exchange : String
  routingKey : String
  mandatory : Bool
  immediate : Bool
  contentType : String
  body : String
  deriving DecidableEq, Repr

/-- Translation of `PublishMessage` (rabbitmq package): builds the routing
key `"order." + messageType` and publishes the body to `order_topic` with
`mandatory=false, immediate=false`, content type `text/plain`; the send
itself can fail (`PublishError`). -/
def PublishMessage (env : RmqEnv) (message : String) (messageType : String) :
    Except RmqError PublishRecord :=
  if env.publishOk then
    .ok { exchange := "order_topic"
          routingKey := "order." ++ messageType
          mandatory := false
          immediate := false
          contentType := "text/plain"
          body := message }
  else .error .publish

/-! ## Consumer -/

/-- Failure injection for the consumer's own connection, channel, queue
declaration and consume registration. -/
structure ConsumerEnv where
  dialOk : Bool
  channelOk : Bool
  declareOk : Bool
  consumeOk : Bool
  deriving DecidableEq, Repr

def consumerEnvAllOk : ConsumerEnv := ⟨true, true, true, true⟩

/-- The `log.Fatalf` exits of `StartConsumer`, which terminate the
process. -/
inductive ConsumerFatal
  | connect
  | channel
  | declareQueue
  | consume
  deriving DecidableEq, Repr

/-- Translation of the setup phase of `StartConsumer` (rabbitmq package):
dial, open a channel, declare the `orders` queue with nil arguments, and
register a consumer with auto-acknowledgement; each failure is
`log.Fatalf`, i.e. fatal to the process. On success it returns the broker
state after the consumer's own queue declaration. -/
def StartConsumer (env : ConsumerEnv) (b : Broker) :
    Except ConsumerFatal Broker :=
  if !env.dialOk then .error .connect
  else if !env.channelOk then .error .channel
  else
    match (if env.declareOk then queueDeclare b "orders" consumerOrdersDecl
           else .error .network) with
    | .error _ => .error .declareQueue
    | .ok b1 => if env.consumeOk then .ok b1 else .error .consume

/-- Translation of `processOrder`: it only logs the order id it was given;
modelled as returning that id as the record of the processing call. -/
def processOrder (orderID : String) : String := orderID

/-- The goroutine structure of `StartConsumer`'s delivery loop: the source
spawns ONE goroutine (`go func() { for msg := range msgs { ... } }()`)
outside the loop. Each element of the outer list is one spawned goroutine;
its inner list is the sequence of `processOrder` calls that goroutine makes,
in delivery order. Deliveries are auto-acknowledged before dispatch. -/
def startConsumerDispatch (msgs : List String) : List (List String) :=
  [msgs.map processOrder]

/-! ## HTTP handlers -/

/-- Translation of `OrderHandler` (order_handler.go) after a successful
request-body bind: store the order in the registry under its id, then call
`ConnectRabbitMQ` and, if that succeeded, `PublishMessage` with the order
id as body and its message type as routing suffix; each broker failure
yields a 500 response, success echoes id and message type. The registry
write happens before any broker interaction. -/
def OrderHandler (env : RmqEnv) (b : Broker) (reg : Registry) (order : Order) :
    Registry × HResp :=
  let reg1 := mapSet reg order.id order
  match (ConnectRabbitMQ env b).2 with
  | .error _ => (reg1, .internalError "OrderHandler failed to connect to RabbitMQ")
  | .ok _ =>
    match PublishMessage env order.id order.messageType with
    | .error _ => (reg1, .internalError "Failed to send message to RabbitMQ")
    | .ok _ => (reg1, .okCreated order.id order.messageType)

/-- Translation of `GetOrderHandler`: look the path id up in the registry;
404 when absent. -/
def GetOrderHandler (reg : Registry) (id : String) : HResp :=
  match reg id with
  | some o => .okOrder o
  | none => .notFound

/-- Translation of `UpdateOrderHandler` after a successful bind of the
request body (Go's bind zero-initializes any omitted field of `newOrder`):
404 when the id is absent (checked before binding), otherwise overwrite the
stored record's `item` and `price` with the bound values, leaving `id` and
`messageType` as they were, and echo the updated record. -/
def UpdateOrderHandler (reg : Registry) (id : String) (newOrder : Order) :
    Registry × HResp :=
  match reg id with
  | none => (reg, .notFound)
  | some o =>
    let updated : Order :=
      { o with item := newOrder.item, price := newOrder.price }
    (mapSet reg id updated, .okOrder updated)

/-- Translation of `DeleteOrderHandler`: 404 when the id is absent,
otherwise remove the entry and answer 204 No Content. -/
def DeleteOrderHandler (reg : Registry) (id : String) : Registry × HResp :=
  match reg id with
  | none => (reg, .notFound)
  | some _ => (mapDel reg id, .noContent)

/-! ## Concrete states used as witnesses -/

/-- Broker state produced by a fully successful `ConnectRabbitMQ` run
against an empty broker. -/
def brokerAfterSetup : Broker :=
  ⟨[("orders", ordersDeclWithDlx), ("orders_dlq", dlqDecl)],
   [("order_topic", orderTopicDecl)],
   [("orders", "order.*", "order_topic")]⟩

/-- Broker state after `StartConsumer` ran first on an empty broker: the
work queue exists, but with nil arguments. -/
def consumerFirstBroker : Broker := ⟨[("orders", consumerOrdersDecl)], [], []⟩

/-- Broker state after `ConnectRabbitMQ` then runs on
`consumerFirstBroker`: the topology is complete, yet the work queue still
carries no dead-letter arguments. -/
def consumerThenSetupBroker : Broker :=
  ⟨[("orders_dlq", dlqDecl), ("orders", consumerOrdersDecl)],
   [("order_topic", orderTopicDecl)],
   [("orders", "order.*", "order_topic")]⟩

/-- The sample order of the spec's example scenarios. -/
def sampleOrder : Order := ⟨"5", "camel", 1200, "success"⟩

/-- A registry holding only `sampleOrder`. -/
def sampleRegistry : Registry := mapSet emptyRegistry "5" sampleOrder

/-- Environment in which every broker call succeeds except the publish
itself. -/
def envPublishFail : RmqEnv := { envAllOk with publishOk := false }

/-! ## Helper lemmas -/

/-- Whatever the broker interaction does, `OrderHandler` leaves the
registry with the submitted order stored under its id. -/
theorem OrderHandler_fst (env : RmqEnv) (b : Broker) (reg : Registry)
    (o : Order) : (OrderHandler env b reg o).1 = mapSet reg o.id o := by
  unfold OrderHandler
  rcases (ConnectRabbitMQ env b).2 with e | b2
  · rfl
  · rcases PublishMessage env o.id o.messageType with e | pr <;> rfl

/-- The HTTP response of `OrderHandler` does not depend on the registry
contents. -/
theorem OrderHandler_snd_congr (env : RmqEnv) (b : Broker)
    (reg reg2 : Registry) (o : Order) :
    (OrderHandler env b reg o).2 = (OrderHandler env b reg2 o).2 := by
  unfold OrderHandler
  rcases (ConnectRabbitMQ env b).2 with e | b2
  · rfl
  · rcases PublishMessage env o.id o.messageType with e | pr <;> rfl

theorem mapSet_self (reg : Registry) (k : String) (v : Order) :
    mapSet reg k v k = some v := by
  simp [mapSet]

theorem queueDeclare_ok_self {b b1 : Broker} {n : String} {d : QueueDecl}
    (h : queueDeclare b n d = Except.ok b1) : b1.queues.lookup n = some d := by
  cases hl : b.queues.lookup n with
  | some d0 =>
    simp only [queueDeclare, hl] at h
    by_cases hdd : d0 = d
    · rw [if_pos hdd] at h
      cases h
      rw [hl, hdd]
    · rw [if_neg hdd] at h
      cases h
  | none =>
    simp only [queueDeclare, hl] at h
    cases h
    simp [List.lookup]

theorem queueDeclare_ok_other {b b1 : Broker} {n m : String} {d : QueueDecl}
    (h : queueDeclare b n d = Except.ok b1) (hnm : (m == n) = false) :
    b1.queues.lookup m = b.queues.lookup m := by
  cases hl : b.queues.lookup n with
  | some d0 =>
    simp only [queueDeclare, hl] at h
    by_cases hdd : d0 = d
    · rw [if_pos hdd] at h
      cases h
      rfl
    · rw [if_neg hdd] at h
      cases h
  | none =>
    simp only [queueDeclare, hl] at h
    cases h
    simp [List.lookup, hnm]

theorem queueInspect_error_lookup {b : Broker} {n : String} {e : AmqpError}
    (h : queueInspect b n = Except.error e) : b.queues.lookup n = none := by
  cases hl : b.queues.lookup n with
  | some d => simp only [queueInspect, hl] at h; exact (Except.noConfusion h)
  | none => rfl

theorem queueInspect_ok_lookup {b : Broker} {n : String} {d : QueueDecl}
    (h : queueInspect b n = Except.ok d) : b.queues.lookup n = some d := by
  cases hl : b.queues.lookup n with
  | some d0 => simp only [queueInspect, hl] at h; cases h; rfl
  | none => simp only [queueInspect, hl] at h; exact (Except.noConfusion h)

theorem finishTopology_trace_cases (env : RmqEnv) (b : Broker)
    (tr : List Step) :
    ((finishTopology env b tr).1 = tr ++ [Step.declareExchange]
       ∧ (finishTopology env b tr).2 = Except.error RmqError.topologyDeclaration)
    ∨ (finishTopology env b tr).1 = tr ++ [Step.declareExchange, Step.bindQueue] := by
  unfold finishTopology
  split
  · exact Or.inl ⟨rfl, rfl⟩
  · split
    · exact Or.inr rfl
    · exact Or.inr rfl

theorem finishTopology_ok_trace {env : RmqEnv} {b : Broker} {tr : List Step}
    {b2 : Broker} (h : (finishTopology env b tr).2 = Except.ok b2) :
    (finishTopology env b tr).1 = tr ++ [Step.declareExchange, Step.bindQueue] := by
  rcases finishTopology_trace_cases env b tr with ⟨h1, h2⟩ | h1
  · rw [h2] at h
    cases h
  · exact h1

/-- Facts about a `ConnectRabbitMQ` run that ended in `finishTopology`:
its trace is a prefix of the canonical full trace, duplicate-free, and
equals the full trace whenever the run succeeds. -/
theorem connect_finish_facts {env : RmqEnv} {b bX : Broker} {trX : List Step}
    (he : ConnectRabbitMQ env b = finishTopology env bX trX)
    (hful : fullTrace b = trX ++ [Step.declareExchange, Step.bindQueue])
    (hnd : (trX ++ [Step.declareExchange, Step.bindQueue]).Nodup) :
    (∃ rest, (ConnectRabbitMQ env b).1 ++ rest = fullTrace b)
    ∧ (ConnectRabbitMQ env b).1.Nodup
    ∧ ∀ b2, (ConnectRabbitMQ env b).2 = Except.ok b2 →
        (ConnectRabbitMQ env b).1 = fullTrace b := by
  refine ⟨?_, ?_, ?_⟩
  · rcases finishTopology_trace_cases env bX trX with ⟨h1, h2⟩ | h1
    · refine ⟨[Step.bindQueue], ?_⟩
      rw [he, h1, hful]
      simp
    · refine ⟨[], ?_⟩
      rw [he, h1, hful]
      simp
  · rcases finishTopology_trace_cases env bX trX with ⟨h1, h2⟩ | h1
    · rw [he, h1]
      refine List.Nodup.sublist ?_ hnd
      refine List.Sublist.append_left ?_ trX
      exact List.cons_sublist_cons.mpr (List.nil_sublist _)
    · rw [he, h1]
      exact hnd
  · intro b2 hok
    rw [he] at hok ⊢
    rw [finishTopology_ok_trace hok, hful]

/-! ## Claims -/

/-- C1: the claim states that once the work queue `orders` is declared it
carries dead-letter arguments pointing at `orders_dlq`, and that topology
setup by any component — including the Consumer's declaration of the same
queue — never errors and never redeclares the queue with conflicting
arguments. The code violates this: after `ConnectRabbitMQ` declares
`orders` with dead-letter arguments, `StartConsumer`'s plain declaration of
the same queue conflicts and is fatal; conversely when `StartConsumer`
declares the queue first (the actual start-up order), the later topology
setup succeeds but leaves the queue with no dead-letter arguments at
all. -/
theorem c1_dead_letter_topology_violated :
    ((ConnectRabbitMQ envAllOk emptyBroker).2 = Except.ok brokerAfterSetup
      ∧ StartConsumer consumerEnvAllOk brokerAfterSetup
          = Except.error ConsumerFatal.declareQueue)
    ∧ (StartConsumer consumerEnvAllOk emptyBroker = Except.ok consumerFirstBroker
      ∧ (ConnectRabbitMQ envAllOk consumerFirstBroker).2
          = Except.ok consumerThenSetupBroker
      ∧ consumerThenSetupBroker.queues.lookup "orders" = some consumerOrdersDecl
      ∧ consumerOrdersDecl.args = []) :=
  ⟨⟨rfl, rfl⟩, rfl, rfl, rfl, rfl⟩

/-- C2: an order submitted with an id not already present in the registry
is returned unchanged by a subsequent `GetOrderHandler` on that id,
whatever the broker did. -/
theorem c2_create_then_get_roundtrip (env : RmqEnv) (b : Broker)
    (reg : Registry) (o : Order) (hfresh : reg o.id = none) :
    GetOrderHandler (OrderHandler env b reg o).1 o.id = HResp.okOrder o := by
  rw [OrderHandler_fst]
  unfold GetOrderHandler
  rw [mapSet_self]

theorem c2_create_then_get_roundtrip_witness :
    emptyRegistry "5" = none
    ∧ GetOrderHandler (OrderHandler envAllOk emptyBroker emptyRegistry sampleOrder).1 "5"
        = HResp.okOrder sampleOrder :=
  ⟨rfl, c2_create_then_get_roundtrip envAllOk emptyBroker emptyRegistry sampleOrder rfl⟩

/-- C3: submitting an order whose id already exists overwrites the prior
record (a later get returns the new one) and produces exactly the response
it would produce if the id were fresh — in particular no duplicate-key
error. -/
theorem c3_duplicate_id_last_write_wins (env : RmqEnv) (b : Broker)
    (reg : Registry) (o old : Order) (hdup : reg o.id = some old) :
    (OrderHandler env b reg o).1 o.id = some o
    ∧ GetOrderHandler (OrderHandler env b reg o).1 o.id = HResp.okOrder o
    ∧ (OrderHandler env b reg o).2 = (OrderHandler env b (mapDel reg o.id) o).2 := by
  refine ⟨?_, ?_, ?_⟩
  · rw [OrderHandler_fst]
    exact mapSet_self reg o.id o
  · rw [OrderHandler_fst]
    unfold GetOrderHandler
    rw [mapSet_self]
  · exact OrderHandler_snd_congr env b reg (mapDel reg o.id) o

theorem c3_duplicate_id_last_write_wins_witness :
    sampleRegistry "5" = some sampleOrder
    ∧ (OrderHandler envAllOk emptyBroker sampleRegistry ⟨"5", "camel v2", 1500, "success"⟩).1 "5"
        = some ⟨"5", "camel v2", 1500, "success"⟩ :=
  ⟨rfl,
   (c3_duplicate_id_last_write_wins envAllOk emptyBroker sampleRegistry
      ⟨"5", "camel v2", 1500, "success"⟩ sampleOrder rfl).1⟩

/-- C7: the routing key computed by `PublishMessage` is exactly
`"order." ++ messageType` for every non-empty message type, including
ones containing a dot. -/
theorem c7_routing_key_derivation (env : RmqEnv) (message messageType : String)
    (hne : ¬ messageType = "") (pr : PublishRecord)
    (hpub : PublishMessage env message messageType = Except.ok pr) :
    pr.routingKey = "order." ++ messageType := by
  by_cases hp : env.publishOk
  · simp only [PublishMessage, hp, if_true] at hpub
    cases hpub
    rfl
  · simp only [PublishMessage, hp] at hpub
    simp at hpub

theorem c7_routing_key_derivation_witness :
    ¬ ("with.dots" : String) = ""
    ∧ PublishMessage envAllOk "5" "with.dots"
        = Except.ok ⟨"order_topic", "order.with.dots", false, false, "text/plain", "5"⟩
    ∧ (⟨"order_topic", "order.with.dots", false, false, "text/plain", "5"⟩ :
        PublishRecord).routingKey = "order." ++ "with.dots" :=
  ⟨by decide, rfl,
   c7_routing_key_derivation envAllOk "5" "with.dots" (by decide) _ rfl⟩

/-- C9 counterexample: the claim says each delivered message is dispatched
on its own spawned concurrent unit (one goroutine per message); the code
spawns a single goroutine for the whole delivery loop, so for two
deliveries the spawned-unit structure is `[["a", "b"]]`, one unit, not the
two units `[["a"], ["b"]]` the claim requires. -/
theorem c9_per_message_goroutine_counterexample :
    startConsumerDispatch ["a", "b"] = [["a", "b"]]
    ∧ ¬ startConsumerDispatch ["a", "b"] = [["a"], ["b"]]
    ∧ (startConsumerDispatch ["a", "b"]).length = 1
    ∧ ¬ (startConsumerDispatch ["a", "b"]).length
          = (["a", "b"] : List String).length := by
  refine ⟨rfl, by decide, rfl, by decide⟩

/-- C9 amended: every delivered message is dispatched to `processOrder` on
one single spawned goroutine shared by all deliveries, sequentially in
delivery order. -/
theorem c9_single_goroutine_sequential_dispatch (msgs : List String) :
    startConsumerDispatch msgs = [msgs]
    ∧ (startConsumerDispatch msgs).length = 1 := by
  constructor
  · unfold startConsumerDispatch processOrder
    simp
  · rfl

/-- C4: updating an existing order replaces only its `item` and `price`,
keeping its `id` and `messageType`, and touches no other registry key;
updating an absent id answers 404 and leaves the registry exactly as it
was. -/
theorem c4_update_frame (reg : Registry) (id : String) (body : Order) :
    (reg id = none → UpdateOrderHandler reg id body = (reg, HResp.notFound))
    ∧ ∀ o, reg id = some o →
        (UpdateOrderHandler reg id body).1 id
            = some { id := o.id, item := body.item, price := body.price,
                     messageType := o.messageType }
        ∧ ∀ k, ¬ k = id → (UpdateOrderHandler reg id body).1 k = reg k := by
  constructor
  · intro h
    unfold UpdateOrderHandler
    rw [h]
  · intro o h
    unfold UpdateOrderHandler
    rw [h]
    constructor
    · exact mapSet_self reg id _
    · intro k hk
      simp [mapSet, hk]

theorem c4_update_frame_witness :
    (emptyRegistry "7" = none
      ∧ UpdateOrderHandler emptyRegistry "7" ⟨"7", "x", 1, "t"⟩
          = (emptyRegistry, HResp.notFound))
    ∧ (sampleRegistry "5" = some sampleOrder
      ∧ (UpdateOrderHandler sampleRegistry "5" ⟨"ignored", "camel v2", 1500, "ignored"⟩).1 "5"
          = some ⟨"5", "camel v2", 1500, "success"⟩) :=
  ⟨⟨rfl, (c4_update_frame emptyRegistry "7" ⟨"7", "x", 1, "t"⟩).1 rfl⟩,
   rfl,
   ((c4_update_frame sampleRegistry "5" ⟨"ignored", "camel v2", 1500, "ignored"⟩).2
      sampleOrder rfl).1⟩

/-- C5: after a delete of any id, a get of that id answers 404 and a second
delete answers 404 as well; the first delete of an existing id answers 204
and removes the entry. -/
theorem c5_delete_then_get_not_found (reg : Registry) (id : String) :
    GetOrderHandler (DeleteOrderHandler reg id).1 id = HResp.notFound
    ∧ (DeleteOrderHandler (DeleteOrderHandler reg id).1 id).2 = HResp.notFound
    ∧ ∀ o, reg id = some o →
        (DeleteOrderHandler reg id).2 = HResp.noContent
        ∧ (DeleteOrderHandler reg id).1 id = none := by
  cases h : reg id with
  | none =>
    have hdel : DeleteOrderHandler reg id = (reg, HResp.notFound) := by
      unfold DeleteOrderHandler
      rw [h]
    refine ⟨?_, ?_, ?_⟩
    · rw [hdel]
      show GetOrderHandler reg id = HResp.notFound
      unfold GetOrderHandler
      rw [h]
    · rw [hdel]
      show (DeleteOrderHandler reg id).2 = HResp.notFound
      rw [hdel]
    · intro o ho
      exact Option.noConfusion ho
  | some o =>
    have hdel : DeleteOrderHandler reg id = (mapDel reg id, HResp.noContent) := by
      unfold DeleteOrderHandler
      rw [h]
    have hnone : mapDel reg id id = none := by
      simp [mapDel]
    have hdel2 : DeleteOrderHandler (mapDel reg id) id
        = (mapDel reg id, HResp.notFound) := by
      unfold DeleteOrderHandler
      rw [hnone]
    refine ⟨?_, ?_, ?_⟩
    · rw [hdel]
      show GetOrderHandler (mapDel reg id) id = HResp.notFound
      unfold GetOrderHandler
      rw [hnone]
    · rw [hdel]
      show (DeleteOrderHandler (mapDel reg id) id).2 = HResp.notFound
      rw [hdel2]
    · intro o2 ho2
      rw [hdel]
      exact ⟨rfl, hnone⟩

theorem c5_delete_then_get_not_found_witness :
    sampleRegistry "5" = some sampleOrder
    ∧ GetOrderHandler (DeleteOrderHandler sampleRegistry "5").1 "5" = HResp.notFound
    ∧ (DeleteOrderHandler (DeleteOrderHandler sampleRegistry "5").1 "5").2
        = HResp.notFound
    ∧ (DeleteOrderHandler sampleRegistry "5").2 = HResp.noContent :=
  ⟨rfl, (c5_delete_then_get_not_found sampleRegistry "5").1,
   (c5_delete_then_get_not_found sampleRegistry "5").2.1,
   ((c5_delete_then_get_not_found sampleRegistry "5").2.2 sampleOrder rfl).1⟩

/-- C6: when the broker dial fails or the publish fails, `OrderHandler`
still stores the order in the registry (the write precedes the broker
interaction), answers the caller with a 500 broker-failure error, and a
later get of the id succeeds. -/
theorem c6_partial_success_on_broker_failure (env : RmqEnv) (b : Broker)
    (reg : Registry) (o : Order)
    (hfail : env.dialOk = false ∨ env.publishOk = false) :
    (OrderHandler env b reg o).1 o.id = some o
    ∧ (∃ m, (OrderHandler env b reg o).2 = HResp.internalError m)
    ∧ GetOrderHandler (OrderHandler env b reg o).1 o.id = HResp.okOrder o := by
  refine ⟨?_, ?_, ?_⟩
  · rw [OrderHandler_fst]
    exact mapSet_self reg o.id o
  · rcases hfail with hd | hp
    · have hc : (ConnectRabbitMQ env b).2 = Except.error RmqError.brokerConnection := by
        unfold ConnectRabbitMQ
        rw [hd]
        rfl
      unfold OrderHandler
      rw [hc]
      exact ⟨"OrderHandler failed to connect to RabbitMQ", rfl⟩
    · unfold OrderHandler
      rcases (ConnectRabbitMQ env b).2 with e | b2
      · exact ⟨"OrderHandler failed to connect to RabbitMQ", rfl⟩
      · have hpub : PublishMessage env o.id o.messageType
            = Except.error RmqError.publish := by
          unfold PublishMessage
          rw [hp]
          rfl
        rw [hpub]
        exact ⟨"Failed to send message to RabbitMQ", rfl⟩
  · rw [OrderHandler_fst]
    unfold GetOrderHandler
    rw [mapSet_self]

theorem c6_partial_success_on_broker_failure_witness :
    envPublishFail.publishOk = false
    ∧ (OrderHandler envPublishFail emptyBroker emptyRegistry sampleOrder).1 "5"
        = some sampleOrder
    ∧ GetOrderHandler
        (OrderHandler envPublishFail emptyBroker emptyRegistry sampleOrder).1 "5"
        = HResp.okOrder sampleOrder :=
  ⟨rfl,
   (c6_partial_success_on_broker_failure envPublishFail emptyBroker emptyRegistry
      sampleOrder (Or.inr rfl)).1,
   (c6_partial_success_on_broker_failure envPublishFail emptyBroker emptyRegistry
      sampleOrder (Or.inr rfl)).2.2⟩

/-- C10: an update of an existing order replaces `item` and `price`
unconditionally with the values bound from the request body — a body whose
fields were omitted carries the zero values `""` and `0` and those are
stored — so the update is a two-field overwrite, never field-selective. -/
theorem c10_update_overwrites_both_fields (reg : Registry) (id : String)
    (o body : Order) (hid : reg id = some o) :
    (UpdateOrderHandler reg id body).2
        = HResp.okOrder { id := o.id, item := body.item, price := body.price,
                          messageType := o.messageType }
    ∧ (UpdateOrderHandler reg id body).1 id
        = some { id := o.id, item := body.item, price := body.price,
                 messageType := o.messageType } := by
  unfold UpdateOrderHandler
  rw [hid]
  exact ⟨rfl, mapSet_self reg id _⟩

theorem c10_update_overwrites_both_fields_witness :
    sampleRegistry "5" = some sampleOrder
    ∧ (UpdateOrderHandler sampleRegistry "5" ⟨"", "", 0, ""⟩).1 "5"
        = some ⟨"5", "", 0, "success"⟩ :=
  ⟨rfl,
   (c10_update_overwrites_both_fields sampleRegistry "5" sampleOrder
      ⟨"", "", 0, ""⟩ rfl).2⟩

/-- C8: `ConnectRabbitMQ` performs its steps in the source order — dial,
open channel, declare `orders_dlq`, probe `orders`, declare it with
dead-letter arguments exactly when the probe reported it absent (otherwise
re-inspect the DLQ), declare `order_topic`, bind with `order.*` — and each
step's failure returns at once with no retry: the executed trace is always
a prefix of the canonical sequence with no step repeated, a successful run
executes the whole sequence, and each early failure stops the trace at the
failing step with the matching error. -/
theorem c8_topology_setup_sequence (env : RmqEnv) (b : Broker) :
    (∃ rest, (ConnectRabbitMQ env b).1 ++ rest = fullTrace b)
    ∧ (ConnectRabbitMQ env b).1.Nodup
    ∧ (∀ b2, (ConnectRabbitMQ env b).2 = Except.ok b2 →
        (ConnectRabbitMQ env b).1 = fullTrace b)
    ∧ (Step.declareOrders ∈ (ConnectRabbitMQ env b).1 →
        b.queues.lookup "orders" = none)
    ∧ ((b.queues.lookup "orders").isSome = true →
        ¬ Step.declareOrders ∈ (ConnectRabbitMQ env b).1)
    ∧ (env.dialOk = false →
        ConnectRabbitMQ env b
          = ([Step.dial], Except.error RmqError.brokerConnection))
    ∧ (env.dialOk = true → env.channelOk = false →
        ConnectRabbitMQ env b
          = ([Step.dial, Step.openChannel], Except.error RmqError.channel))
    ∧ (env.dialOk = true → env.channelOk = true → env.declareDlqOk = false →
        ConnectRabbitMQ env b
          = ([Step.dial, Step.openChannel, Step.declareDlq],
             Except.error RmqError.topologyDeclaration)) := by
  cases hd : env.dialOk with
  | false =>
    have he : ConnectRabbitMQ env b
        = ([Step.dial], Except.error RmqError.brokerConnection) := by
      simp [ConnectRabbitMQ, hd]
    refine ⟨?_, ?_, ?_, ?_, ?_, ?_, ?_, ?_⟩
    · rw [he]
      show ∃ rest, [Step.dial] ++ rest = fullTrace b
      cases hq : (b.queues.lookup "orders").isSome <;> simp [fullTrace, hq]
    · rw [he]
      decide
    · intro b2 hok
      rw [he] at hok
      exact Except.noConfusion hok
    · rw [he]
      intro hm
      exact absurd hm (by decide)
    · intro hs
      rw [he]
      intro hm
      exact absurd hm (by decide)
    · intro h
      exact he
    · intro h1 h2
      exact Bool.noConfusion h1
    · intro h1 h2 h3
      exact Bool.noConfusion h1
  | true =>
    cases hc : env.channelOk with
    | false =>
      have he : ConnectRabbitMQ env b
          = ([Step.dial, Step.openChannel], Except.error RmqError.channel) := by
        simp [ConnectRabbitMQ, hd, hc]
      refine ⟨?_, ?_, ?_, ?_, ?_, ?_, ?_, ?_⟩
      · rw [he]
        show ∃ rest, [Step.dial, Step.openChannel] ++ rest = fullTrace b
        cases hq : (b.queues.lookup "orders").isSome <;> simp [fullTrace, hq]
      · rw [he]
        decide
      · intro b2 hok
        rw [he] at hok
        exact Except.noConfusion hok
      · rw [he]
        intro hm
        exact absurd hm (by decide)
      · intro hs
        rw [he]
        intro hm
        exact absurd hm (by decide)
      · intro h
        exact Bool.noConfusion h
      · intro h1 h2
        exact he
      · intro h1 h2 h3
        exact Bool.noConfusion h2
    | true =>
      have hdlqTopo :
          ∀ hwit : ConnectRabbitMQ env b
              = ([Step.dial, Step.openChannel, Step.declareDlq],
                 Except.error RmqError.topologyDeclaration),
          (∃ rest, (ConnectRabbitMQ env b).1 ++ rest = fullTrace b)
          ∧ (ConnectRabbitMQ env b).1.Nodup
          ∧ (∀ b2, (ConnectRabbitMQ env b).2 = Except.ok b2 →
              (ConnectRabbitMQ env b).1 = fullTrace b)
          ∧ (Step.declareOrders ∈ (ConnectRabbitMQ env b).1 →
              b.queues.lookup "orders" = none)
          ∧ ((b.queues.lookup "orders").isSome = true →
              ¬ Step.declareOrders ∈ (ConnectRabbitMQ env b).1) := by
        intro he
        refine ⟨?_, ?_, ?_, ?_, ?_⟩
        · rw [he]
          show ∃ rest,
            [Step.dial, Step.openChannel, Step.declareDlq] ++ rest = fullTrace b
          cases hq : (b.queues.lookup "orders").isSome <;> simp [fullTrace, hq]
        · rw [he]
          decide
        · intro b2 hok
          rw [he] at hok
          exact Except.noConfusion hok
        · rw [he]
          intro hm
          exact absurd hm (by decide)
        · intro hs
          rw [he]
          intro hm
          exact absurd hm (by decide)
      cases hdlq : env.declareDlqOk with
      | false =>
        have he : ConnectRabbitMQ env b
            = ([Step.dial, Step.openChannel, Step.declareDlq],
               Except.error RmqError.topologyDeclaration) := by
          simp [ConnectRabbitMQ, hd, hc, hdlq]
        rcases hdlqTopo he with ⟨g1, g2, g3, g4, g5⟩
        refine ⟨g1, g2, g3, g4, g5, ?_, ?_, ?_⟩
        · intro h
          exact Bool.noConfusion h
        · intro h1 h2
          exact Bool.noConfusion h2
        · intro h1 h2 h3
          exact he
      | true =>
        cases hq : queueDeclare b "orders_dlq" dlqDecl with
        | error e =>
          have he : ConnectRabbitMQ env b
              = ([Step.dial, Step.openChannel, Step.declareDlq],
                 Except.error RmqError.topologyDeclaration) := by
            simp [ConnectRabbitMQ, hd, hc, hdlq, hq]
          rcases hdlqTopo he with ⟨g1, g2, g3, g4, g5⟩
          refine ⟨g1, g2, g3, g4, g5, ?_, ?_, ?_⟩
          · intro h
            exact Bool.noConfusion h
          · intro h1 h2
            exact Bool.noConfusion h2
          · intro h1 h2 h3
            exact Bool.noConfusion h3
        | ok b1 =>
          have hlk1 : b1.queues.lookup "orders" = b.queues.lookup "orders" :=
            queueDeclare_ok_other hq (by decide)
          have hdlqself : b1.queues.lookup "orders_dlq" = some dlqDecl :=
            queueDeclare_ok_self hq
          cases hins : queueInspect b1 "orders" with
          | error e =>
            have h1 : b1.queues.lookup "orders" = none :=
              queueInspect_error_lookup hins
            have hlkN : b.queues.lookup "orders" = none := by
              rw [← hlk1]
              exact h1
            have hful : fullTrace b
                = [Step.dial, Step.openChannel, Step.declareDlq,
                   Step.inspectOrders, Step.declareOrders]
                  ++ [Step.declareExchange, Step.bindQueue] := by
              simp [fullTrace, hlkN]
            cases hdo : env.declareOrdersOk with
            | false =>
              have he : ConnectRabbitMQ env b
                  = ([Step.dial, Step.openChannel, Step.declareDlq,
                      Step.inspectOrders, Step.declareOrders],
                     Except.error RmqError.topologyDeclaration) := by
                simp [ConnectRabbitMQ, hd, hc, hdlq, hq, hins, hdo]
              refine ⟨?_, ?_, ?_, ?_, ?_, ?_, ?_, ?_⟩
              · refine ⟨[Step.declareExchange, Step.bindQueue], ?_⟩
                rw [he, hful]
              · rw [he]
                decide
              · intro b2 hok
                rw [he] at hok
                exact Except.noConfusion hok
              · intro hm
                exact hlkN
              · intro hs
                rw [hlkN] at hs
                exact absurd hs (by decide)
              · intro h
                exact Bool.noConfusion h
              · intro h1 h2
                exact Bool.noConfusion h2
              · intro h1 h2 h3
                exact Bool.noConfusion h3
            | true =>
              cases hdo2 : queueDeclare b1 "orders" ordersDeclWithDlx with
              | error e2 =>
                exfalso
                simp [queueDeclare, h1] at hdo2
              | ok b2 =>
                have he : ConnectRabbitMQ env b
                    = finishTopology env b2
                        [Step.dial, Step.openChannel, Step.declareDlq,
                         Step.inspectOrders, Step.declareOrders] := by
                  simp [ConnectRabbitMQ, hd, hc, hdlq, hq, hins, hdo, hdo2]
                rcases connect_finish_facts he hful (by decide) with ⟨g1, g2, g3⟩
                refine ⟨g1, g2, g3, ?_, ?_, ?_, ?_, ?_⟩
                · intro hm
                  exact hlkN
                · intro hs
                  rw [hlkN] at hs
                  exact absurd hs (by decide)
                · intro h
                  exact Bool.noConfusion h
                · intro h1 h2
                  exact Bool.noConfusion h2
                · intro h1 h2 h3
                  exact Bool.noConfusion h3
          | ok d =>
            have h1 : b1.queues.lookup "orders" = some d :=
              queueInspect_ok_lookup hins
            have hlkS : b.queues.lookup "orders" = some d := by
              rw [← hlk1]
              exact h1
            have hins2 : queueInspect b1 "orders_dlq" = Except.ok dlqDecl := by
              simp [queueInspect, hdlqself]
            have hful : fullTrace b
                = [Step.dial, Step.openChannel, Step.declareDlq,
                   Step.inspectOrders, Step.inspectDlq]
                  ++ [Step.declareExchange, Step.bindQueue] := by
              simp [fullTrace, hlkS]
            have he : ConnectRabbitMQ env b
                = finishTopology env b1
                    [Step.dial, Step.openChannel, Step.declareDlq,
                     Step.inspectOrders, Step.inspectDlq] := by
              simp [ConnectRabbitMQ, hd, hc, hdlq, hq, hins, hins2]
            have hnotmem : ¬ Step.declareOrders ∈ (ConnectRabbitMQ env b).1 := by
              rcases finishTopology_trace_cases env b1
                  [Step.dial, Step.openChannel, Step.declareDlq,
                   Step.inspectOrders, Step.inspectDlq] with ⟨ht, _⟩ | ht <;>
                · rw [he, ht]
                  decide
            rcases connect_finish_facts he hful (by decide) with ⟨g1, g2, g3⟩
            refine ⟨g1, g2, g3, ?_, ?_, ?_, ?_, ?_⟩
            · intro hm
              exact absurd hm hnotmem
            · intro hs
              exact hnotmem
            · intro h
              exact Bool.noConfusion h
            · intro h1 h2
              exact Bool.noConfusion h2
            · intro h1 h2 h3
              exact Bool.noConfusion h3

theorem c8_topology_setup_sequence_witness :
    (ConnectRabbitMQ envAllOk emptyBroker).1 = fullTrace emptyBroker :=
  (c8_topology_setup_sequence envAllOk emptyBroker).2.2.1 brokerAfterSetup rfl

end GoEchoRabbit
